import Mathlib

/-!
Verification of the lab-report portal client (bala_lab).

The client code is shallowly embedded: each React handler becomes a pure
Lean function from its inputs (component state, the server's response,
browser interaction results) to an explicit outcome record listing the new
state, the toasts raised, and which network requests were issued.
-/

namespace BalaLab

/-- A report's metadata as returned by `GET /reports`. -/
structure Report where
  id : String
  original_name : String
  user_email : String
  file_type : String
  created_at : String
deriving DecidableEq, Repr

/-- A user record as returned by `GET /users`. -/
structure UserRec where
  id : String
  email : String
deriving DecidableEq, Repr

/-- The authenticated user object held by the auth context (`useAuth`). -/
structure AuthUser where
  email : String
  role : String
deriving DecidableEq, Repr

/-- A toast notification raised through `sonner`. -/
inductive Toast where
  | success (msg : String)
  | error (msg : String)
deriving DecidableEq, Repr

/-- The shape of an axios rejection as the handlers read it:
`err.response?.data?.detail` collapses to an optional detail string. -/
structure ApiError where
  detail : Option String
deriving DecidableEq, Repr

/-! ## HTTP client interceptor (src/unnamed/part_000) -/

/-- An outgoing axios request config; only the `Authorization` header is
relevant to the interceptor, so it is kept as an optional field. -/
structure RequestConfig where
  url : String
  authorization : Option String
deriving DecidableEq, Repr

/-- `api.interceptors.request.use`: read the token from local storage and,
when it is truthy, set `Authorization: Bearer <token>` on the config. The
JavaScript guard `if (token)` is false both for `null` (no stored key) and
for the empty string, so a stored `""` attaches no header. -/
def interceptRequest (localToken : Option String) (config : RequestConfig) :
    RequestConfig :=
  match localToken with
  | some token =>
      if token = "" then config
      else { config with authorization := some ("Bearer " ++ token) }
  | none => config

/-- The client-side session: the stored token and the current user. -/
structure Session where
  token : Option String
  user : Option AuthUser
deriving DecidableEq, Repr

/-- Modelled from the spec: `logout()` lives in `hooks/useAuth`, which is
not among the provided sources. Per the spec it "discards the local token
and user state unconditionally (no server round-trip required)". -/
def logout (_s : Session) : Session :=
  { token := none, user := none }

/-! ## Routing/authorization gate (src/frontend/src/App.js) -/

/-- What `ProtectedRoute` renders. -/
inductive RouteOutput where
  | loadingView
  | navigate (dest : String)
  | children
deriving DecidableEq, Repr

/-- `ProtectedRoute`: loading guard, then auth guard, then role guard. -/
def ProtectedRoute (user : Option AuthUser) (loading : Bool)
    (requireAdmin : Bool) : RouteOutput :=
  if loading then RouteOutput.loadingView
  else
    match user with
    | none => RouteOutput.navigate "/login"
    | some u =>
        if requireAdmin ∧ u.role ≠ "admin" then RouteOutput.navigate "/"
        else RouteOutput.children

/-- Which dashboard component the root route renders. -/
inductive Dashboard where
  | adminDashboard
  | userDashboard
deriving DecidableEq, Repr

/-- `DashboardRouter`: `if (user?.role === 'admin')` render the admin
dashboard, otherwise the user dashboard. -/
def DashboardRouter (user : Option AuthUser) : Dashboard :=
  match user with
  | some u =>
      if u.role = "admin" then Dashboard.adminDashboard
      else Dashboard.userDashboard
  | none => Dashboard.userDashboard

/-! ## Admin dashboard (src/frontend/src/pages/AdminDashboard.js) -/

/-- The admin dashboard's component state (`useState` hooks). The selected
file is represented by its name. -/
structure AdminState where
  reports : List Report
  users : List UserRec
  selectedUser : String
  file : Option String
deriving DecidableEq, Repr

/-- `Promise.all` over two settled promises: fulfilled only when both are,
rejected with the first rejection otherwise. -/
def promiseAll2 {α β : Type} (a : Except ApiError α) (b : Except ApiError β) :
    Except ApiError (α × β) :=
  match a, b with
  | Except.ok x, Except.ok y => Except.ok (x, y)
  | Except.error e, _ => Except.error e
  | _, Except.error e => Except.error e

/-- Outcome of `fetchData`: the state after the handler and the toasts it
raised. -/
structure FetchOutcome where
  state : AdminState
  toasts : List Toast
deriving DecidableEq, Repr

/-- `fetchData`: await `Promise.all([api.get('/reports'), api.get('/users')])`;
on fulfilment set both collections, on rejection toast and change nothing. -/
def fetchData (s : AdminState) (reportsRes : Except ApiError (List Report))
    (usersRes : Except ApiError (List UserRec)) : FetchOutcome :=
  match promiseAll2 reportsRes usersRes with
  | Except.ok (rs, us) =>
      { state := { s with reports := rs, users := us }, toasts := [] }
  | Except.error _ =>
      { state := s, toasts := [Toast.error "Failed to fetch dashboard data"] }

/-- Outcome of `handleUpload`: resulting state, toasts, whether the upload
POST was issued, and whether `fetchData` was invoked afterwards. -/
structure UploadOutcome where
  state : AdminState
  toasts : List Toast
  requestIssued : Bool
  refreshCalled : Bool
deriving DecidableEq, Repr

/-- JavaScript `x || y` on an optional string `x`: falls through to `y`
both when `x` is null/undefined and when it is the (falsy) empty string. -/
def jsOrElse (x : Option String) (y : String) : String :=
  match x with
  | some s => if s = "" then y else s
  | none => y

/-- `handleUpload`: validate that a file and a target user are selected
(else toast and return without any request); then POST the multipart form;
on success toast, clear the form and refresh; on failure toast
`err.response?.data?.detail || 'Upload failed'` (JS `||`, so an empty
detail also falls through to the generic message). -/
def handleUpload (s : AdminState) (uploadRes : Except ApiError Unit)
    (reportsRes : Except ApiError (List Report))
    (usersRes : Except ApiError (List UserRec)) : UploadOutcome :=
  if s.file = none ∨ s.selectedUser = "" then
    { state := s, toasts := [Toast.error "Please select both a file and a user"],
      requestIssued := false, refreshCalled := false }
  else
    match uploadRes with
    | Except.ok _ =>
        let cleared := { s with file := none, selectedUser := "" }
        let f := fetchData cleared reportsRes usersRes
        { state := f.state,
          toasts := Toast.success "Report uploaded successfully" :: f.toasts,
          requestIssued := true, refreshCalled := true }
    | Except.error e =>
        { state := s,
          toasts := [Toast.error (jsOrElse e.detail "Upload failed")],
          requestIssued := true, refreshCalled := false }

/-- Outcome of `handleDelete`. -/
structure DeleteOutcome where
  state : AdminState
  toasts : List Toast
  requestIssued : Bool
  refreshCalled : Bool
deriving DecidableEq, Repr

/-- `handleDelete`: `window.confirm` gates the request; on success toast
and refresh, on failure toast the generic delete message. -/
def handleDelete (s : AdminState) (confirmed : Bool)
    (deleteRes : Except ApiError Unit)
    (reportsRes : Except ApiError (List Report))
    (usersRes : Except ApiError (List UserRec)) : DeleteOutcome :=
  if !confirmed then
    { state := s, toasts := [], requestIssued := false, refreshCalled := false }
  else
    match deleteRes with
    | Except.ok _ =>
        let f := fetchData s reportsRes usersRes
        { state := f.state,
          toasts := Toast.success "Report deleted" :: f.toasts,
          requestIssued := true, refreshCalled := true }
    | Except.error _ =>
        { state := s, toasts := [Toast.error "Delete failed"],
          requestIssued := true, refreshCalled := false }

/-! ## User dashboard (second component in src/frontend/src/pages/AuthPage.js) -/

/-- The hard-coded fallback backend URL. -/
def defaultBackendUrl : String :=
  "https://lab-report-hub-1.preview.emergentagent.com/api"

/-- `process.env.REACT_APP_BACKEND_URL || default`: JavaScript `||` falls
through on the empty string as well as on an absent variable. -/
def resolveBaseUrl (envUrl : Option String) : String :=
  match envUrl with
  | some u => if u = "" then defaultBackendUrl else u
  | none => defaultBackendUrl

/-- JavaScript template-literal interpolation of a possibly-null string. -/
def jsInterp : Option String → String
  | some s => s
  | none => "null"

/-- A `window.open` call: the URL and the target browsing context. The
call carries no request configuration, so no custom headers exist here. -/
structure WindowOpen where
  url : String
  target : String
deriving DecidableEq, Repr

/-- `handlePreview`: open the preview endpoint in a new browsing context,
with the stored token as the `token` query parameter. -/
def handlePreview (envUrl : Option String) (localToken : Option String)
    (reportId : String) : WindowOpen :=
  let baseUrl := resolveBaseUrl envUrl
  { url := baseUrl ++ "/reports/" ++ reportId ++ "/preview?token="
      ++ jsInterp localToken,
    target := "_blank" }

/-- Outcome of `handleDownload`: which URL was requested, the filename the
anchor's `download` attribute suggests when the save happens, and toasts. -/
structure DownloadOutcome where
  requestUrl : String
  savedAs : Option String
  toasts : List Toast
deriving DecidableEq, Repr

/-- `handleDownload`: GET the download endpoint as a blob; on success build
an object URL and click an anchor whose `download` attribute is the passed
filename; on failure toast the generic download message. -/
def handleDownload (reportId : String) (filename : String)
    (res : Except ApiError (List Nat)) : DownloadOutcome :=
  let url := "/reports/" ++ reportId ++ "/download"
  match res with
  | Except.ok _ => { requestUrl := url, savedAs := some filename, toasts := [] }
  | Except.error _ =>
      { requestUrl := url, savedAs := none,
        toasts := [Toast.error "Download failed"] }

/-- The user dashboard's download button invokes
`handleDownload(r.id, r.original_name)`. -/
def downloadAction (r : Report) (res : Except ApiError (List Nat)) :
    DownloadOutcome :=
  handleDownload r.id r.original_name res

/-! ## Helper lemmas -/

/-- `fetchData` only touches the two fetched collections: the upload form's
fields survive a refresh unchanged. -/
theorem fetchData_preserves_form (s : AdminState)
    (reportsRes : Except ApiError (List Report))
    (usersRes : Except ApiError (List UserRec)) :
    (fetchData s reportsRes usersRes).state.file = s.file
    ∧ (fetchData s reportsRes usersRes).state.selectedUser = s.selectedUser := by
  cases reportsRes <;> cases usersRes <;> exact ⟨rfl, rfl⟩

/-! ## Claims -/

/-- Counterexample for C1 as stated: with the empty string stored as the
token, a token string is present in local storage, yet the interceptor's
`if (token)` guard is false and the request goes out with no Authorization
header — so "header iff a token string is present" fails at `some ""`. -/
theorem interceptor_empty_token_counterexample :
    (interceptRequest (some "") ⟨"/reports", none⟩).authorization = none
    ∧ (interceptRequest (some "") ⟨"/reports", none⟩).authorization
        ≠ some ("Bearer " ++ "") := by
  exact ⟨rfl, by decide⟩

/-- C1 (amended): an outgoing request carries `Authorization: Bearer
<token>` exactly when a nonempty token string is stored; with no stored
token or an empty-string token (in particular right after `logout`, which
discards the token) the request goes out with no Authorization header. -/
theorem interceptor_bearer_nonempty (tok : Option String) (c : RequestConfig)
    (h : c.authorization = none) :
    (∀ t, tok = some t → t ≠ "" →
      (interceptRequest tok c).authorization = some ("Bearer " ++ t))
    ∧ ((tok = none ∨ tok = some "") →
      (interceptRequest tok c).authorization = none)
    ∧ ∀ s : Session, (interceptRequest (logout s).token c).authorization = none := by
  refine ⟨?_, ?_, ?_⟩
  · intro t ht hne
    subst ht
    simp [interceptRequest, hne]
  · rintro (ht | ht) <;> subst ht <;> simp [interceptRequest, h]
  · intro s
    simp [interceptRequest, logout, h]

/-- Witness for C1 at a concrete nonempty token and a fresh config. -/
theorem interceptor_bearer_nonempty_witness :
    (interceptRequest (some "tk") ⟨"/reports", none⟩).authorization
      = some ("Bearer " ++ "tk") :=
  (interceptor_bearer_nonempty (some "tk") ⟨"/reports", none⟩ rfl).1
    "tk" rfl (by decide)

/-- C2: the gate shows the loading view while restoration is pending,
redirects unauthenticated access to `/login`, redirects a non-admin hitting
an admin-only region to `/`, and otherwise renders the children. -/
theorem protectedRoute_gate (user : Option AuthUser)
    (loading requireAdmin : Bool) :
    (loading = true →
      ProtectedRoute user loading requireAdmin = RouteOutput.loadingView)
    ∧ (loading = false → user = none →
      ProtectedRoute user loading requireAdmin = RouteOutput.navigate "/login")
    ∧ (∀ u : AuthUser, loading = false → user = some u → requireAdmin = true →
      u.role ≠ "admin" →
      ProtectedRoute user loading requireAdmin = RouteOutput.navigate "/")
    ∧ (∀ u : AuthUser, loading = false → user = some u →
      (requireAdmin = false ∨ u.role = "admin") →
      ProtectedRoute user loading requireAdmin = RouteOutput.children) := by
  refine ⟨?_, ?_, ?_, ?_⟩
  · intro h; subst h; rfl
  · intro h1 h2; subst h1; subst h2; rfl
  · intro u h1 h2 h3 h4
    subst h1; subst h2; subst h3
    simp [ProtectedRoute, h4]
  · intro u h1 h2 h3
    subst h1; subst h2
    rcases h3 with h | h <;> simp [ProtectedRoute, h]

/-- Witness for C2: a non-admin on an admin-only region is sent to `/`. -/
theorem protectedRoute_gate_witness :
    ProtectedRoute (some ⟨"p@x", "user"⟩) false true = RouteOutput.navigate "/" :=
  (protectedRoute_gate (some ⟨"p@x", "user"⟩) false true).2.2.1
    ⟨"p@x", "user"⟩ rfl rfl rfl (by decide)

/-- C3: for an authenticated user, the root dispatch is decided by the role
alone — role `admin` renders the admin dashboard, anything else the user
dashboard — and two users with the same role are routed identically. -/
theorem dashboardRouter_role_only (u : AuthUser) :
    (DashboardRouter (some u)
      = if u.role = "admin" then Dashboard.adminDashboard
        else Dashboard.userDashboard)
    ∧ ∀ v : AuthUser, v.role = u.role →
      DashboardRouter (some v) = DashboardRouter (some u) := by
  constructor
  · rfl
  · intro v h
    simp [DashboardRouter, h]

/-- Witness for C3: two distinct admins land on the same dashboard. -/
theorem dashboardRouter_role_only_witness :
    DashboardRouter (some ⟨"a@x", "admin"⟩)
      = DashboardRouter (some ⟨"b@y", "admin"⟩) :=
  (dashboardRouter_role_only ⟨"b@y", "admin"⟩).2 ⟨"a@x", "admin"⟩ rfl

/-- C4: with the file or the target user missing, `handleUpload` issues no
request (neither the upload POST nor a refresh), raises only the validation
toast, and leaves the state unchanged. -/
theorem upload_missing_input_no_request (s : AdminState)
    (uploadRes : Except ApiError Unit)
    (reportsRes : Except ApiError (List Report))
    (usersRes : Except ApiError (List UserRec))
    (h : s.file = none ∨ s.selectedUser = "") :
    (handleUpload s uploadRes reportsRes usersRes).requestIssued = false
    ∧ (handleUpload s uploadRes reportsRes usersRes).refreshCalled = false
    ∧ (handleUpload s uploadRes reportsRes usersRes).toasts
        = [Toast.error "Please select both a file and a user"]
    ∧ (handleUpload s uploadRes reportsRes usersRes).state = s := by
  unfold handleUpload
  rw [if_pos h]
  exact ⟨rfl, rfl, rfl, rfl⟩

/-- Witness for C4 with no file selected. -/
theorem upload_missing_input_no_request_witness :
    (handleUpload ⟨[], [], "u@x", none⟩ (Except.ok ()) (Except.ok [])
      (Except.ok [])).requestIssued = false :=
  (upload_missing_input_no_request ⟨[], [], "u@x", none⟩ (Except.ok ())
    (Except.ok []) (Except.ok []) (Or.inl rfl)).1

/-- C5: the admin refresh joins the two fetches: both collections are
replaced exactly when both fetches fulfil; if either rejects, the state is
untouched and only the non-fatal fetch-failure toast is raised. -/
theorem fetchData_all_or_nothing (s : AdminState)
    (reportsRes : Except ApiError (List Report))
    (usersRes : Except ApiError (List UserRec)) :
    (∀ rs us, reportsRes = Except.ok rs → usersRes = Except.ok us →
      fetchData s reportsRes usersRes
        = { state := { s with reports := rs, users := us }, toasts := [] })
    ∧ ((∃ e, reportsRes = Except.error e) ∨ (∃ e, usersRes = Except.error e) →
      (fetchData s reportsRes usersRes).state = s
      ∧ (fetchData s reportsRes usersRes).toasts
          = [Toast.error "Failed to fetch dashboard data"]) := by
  constructor
  · intro rs us hr hu
    subst hr; subst hu
    rfl
  · rintro (⟨e, he⟩ | ⟨e, he⟩)
    · subst he; cases usersRes <;> exact ⟨rfl, rfl⟩
    · subst he; cases reportsRes <;> exact ⟨rfl, rfl⟩

/-- Witness for C5: a rejected users fetch leaves prior state intact. -/
theorem fetchData_all_or_nothing_witness :
    (fetchData ⟨[⟨"1", "a.pdf", "p@x", "pdf", "2024-01-01"⟩], [], "", none⟩
      (Except.ok []) (Except.error ⟨none⟩)).state
      = ⟨[⟨"1", "a.pdf", "p@x", "pdf", "2024-01-01"⟩], [], "", none⟩ :=
  ((fetchData_all_or_nothing
    ⟨[⟨"1", "a.pdf", "p@x", "pdf", "2024-01-01"⟩], [], "", none⟩
    (Except.ok []) (Except.error ⟨none⟩)).2 (Or.inr ⟨⟨none⟩, rfl⟩)).1

/-- Counterexample for C6 as stated: when the rejected response carries the
empty string as its `detail`, the response contains a server-provided
message, yet `detail || 'Upload failed'` falls through and the program
toasts the generic message instead of the server's. -/
theorem upload_empty_detail_counterexample :
    (handleUpload ⟨[], [], "u@x", some "f.pdf"⟩ (Except.error ⟨some ""⟩)
      (Except.ok []) (Except.ok [])).toasts = [Toast.error "Upload failed"]
    ∧ (handleUpload ⟨[], [], "u@x", some "f.pdf"⟩ (Except.error ⟨some ""⟩)
      (Except.ok []) (Except.ok [])).toasts ≠ [Toast.error ""] := by
  exact ⟨rfl, by decide⟩

/-- C6 (amended): with both inputs present, a fulfilled upload clears the
form and refreshes the list (the state becomes the refresh of the cleared
state) and toasts success; a rejected upload toasts the server's `detail`
when it is present and nonempty, and the generic upload-failed message when
the detail is absent or empty. -/
theorem upload_complete_behaviour (s : AdminState)
    (uploadRes : Except ApiError Unit)
    (reportsRes : Except ApiError (List Report))
    (usersRes : Except ApiError (List UserRec))
    (hf : s.file ≠ none) (hu : s.selectedUser ≠ "") :
    (uploadRes = Except.ok () →
      (handleUpload s uploadRes reportsRes usersRes).state.file = none
      ∧ (handleUpload s uploadRes reportsRes usersRes).state.selectedUser = ""
      ∧ (handleUpload s uploadRes reportsRes usersRes).refreshCalled = true
      ∧ (handleUpload s uploadRes reportsRes usersRes).state
          = (fetchData { s with file := none, selectedUser := "" }
              reportsRes usersRes).state
      ∧ Toast.success "Report uploaded successfully"
          ∈ (handleUpload s uploadRes reportsRes usersRes).toasts)
    ∧ (∀ e : ApiError, uploadRes = Except.error e →
      (∀ m, e.detail = some m → m ≠ "" →
        (handleUpload s uploadRes reportsRes usersRes).toasts = [Toast.error m])
      ∧ ((e.detail = none ∨ e.detail = some "") →
        (handleUpload s uploadRes reportsRes usersRes).toasts
          = [Toast.error "Upload failed"])) := by
  have hcond : ¬(s.file = none ∨ s.selectedUser = "") := by
    rintro (h | h)
    · exact hf h
    · exact hu h
  constructor
  · intro hok
    subst hok
    unfold handleUpload
    rw [if_neg hcond]
    refine ⟨?_, ?_, rfl, rfl, ?_⟩
    · exact (fetchData_preserves_form { s with file := none, selectedUser := "" }
        reportsRes usersRes).1
    · exact (fetchData_preserves_form { s with file := none, selectedUser := "" }
        reportsRes usersRes).2
    · exact List.mem_cons_self _ _
  · intro e he
    subst he
    unfold handleUpload
    rw [if_neg hcond]
    constructor
    · intro m hm hne
      simp [jsOrElse, hm, hne]
    · rintro (hm | hm) <;> simp [jsOrElse, hm]

/-- Witness for C6: a rejected upload with a nonempty server detail
surfaces exactly that detail. -/
theorem upload_complete_behaviour_witness :
    (handleUpload ⟨[], [], "u@x", some "f.pdf"⟩
      (Except.error ⟨some "User not found"⟩) (Except.ok [])
      (Except.ok [])).toasts = [Toast.error "User not found"] :=
  ((upload_complete_behaviour ⟨[], [], "u@x", some "f.pdf"⟩
    (Except.error ⟨some "User not found"⟩) (Except.ok []) (Except.ok [])
    (by decide) (by decide)).2 ⟨some "User not found"⟩ rfl).1
    "User not found" rfl (by decide)

/-- C7: declining the confirmation issues no delete request and changes
nothing; a confirmed, fulfilled delete refreshes the list and toasts
success; a confirmed, rejected delete toasts the generic delete-failed
message and leaves the state as it was (the handler is total: no crash). -/
theorem delete_confirmation_gate (s : AdminState) (confirmed : Bool)
    (deleteRes : Except ApiError Unit)
    (reportsRes : Except ApiError (List Report))
    (usersRes : Except ApiError (List UserRec)) :
    (confirmed = false →
      (handleDelete s confirmed deleteRes reportsRes usersRes).requestIssued = false
      ∧ (handleDelete s confirmed deleteRes reportsRes usersRes).state = s
      ∧ (handleDelete s confirmed deleteRes reportsRes usersRes).toasts = [])
    ∧ (confirmed = true → deleteRes = Except.ok () →
      (handleDelete s confirmed deleteRes reportsRes usersRes).refreshCalled = true
      ∧ (handleDelete s confirmed deleteRes reportsRes usersRes).state
          = (fetchData s reportsRes usersRes).state
      ∧ Toast.success "Report deleted"
          ∈ (handleDelete s confirmed deleteRes reportsRes usersRes).toasts)
    ∧ (∀ e : ApiError, confirmed = true → deleteRes = Except.error e →
      (handleDelete s confirmed deleteRes reportsRes usersRes).toasts
        = [Toast.error "Delete failed"]
      ∧ (handleDelete s confirmed deleteRes reportsRes usersRes).state = s) := by
  refine ⟨?_, ?_, ?_⟩
  · intro h
    subst h
    exact ⟨rfl, rfl, rfl⟩
  · intro h hok
    subst h; subst hok
    exact ⟨rfl, rfl, List.mem_cons_self _ _⟩
  · intro e h he
    subst h; subst he
    exact ⟨rfl, rfl⟩

/-- Witness for C7: a declined confirmation issues no request. -/
theorem delete_confirmation_gate_witness :
    (handleDelete ⟨[], [], "", none⟩ false (Except.ok ()) (Except.ok [])
      (Except.ok [])).requestIssued = false :=
  ((delete_confirmation_gate ⟨[], [], "", none⟩ false (Except.ok ())
    (Except.ok []) (Except.ok [])).1 rfl).1

/-- C8: the preview opens a new browsing context on the URL built from the
resolved base URL, the report id and the stored token as the `token` query
parameter; the `window.open` carries no headers at all. -/
theorem preview_url_shape (envUrl : Option String) (tok : String)
    (reportId : String) :
    handlePreview envUrl (some tok) reportId
      = { url := resolveBaseUrl envUrl ++ "/reports/" ++ reportId
            ++ "/preview?token=" ++ tok,
          target := "_blank" } := rfl

/-- C9: the download hits the report's download endpoint; a fulfilled fetch
saves under exactly the report's original name; a rejected fetch saves
nothing and toasts the generic download-failed message. -/
theorem download_saves_suggested_name (r : Report)
    (res : Except ApiError (List Nat)) :
    (downloadAction r res).requestUrl = "/reports/" ++ r.id ++ "/download"
    ∧ (∀ bytes, res = Except.ok bytes →
      (downloadAction r res).savedAs = some r.original_name
      ∧ (downloadAction r res).toasts = [])
    ∧ (∀ e : ApiError, res = Except.error e →
      (downloadAction r res).savedAs = none
      ∧ (downloadAction r res).toasts = [Toast.error "Download failed"]) := by
  refine ⟨?_, ?_, ?_⟩
  · cases res <;> rfl
  · intro bytes h
    subst h
    exact ⟨rfl, rfl⟩
  · intro e h
    subst h
    exact ⟨rfl, rfl⟩

/-- Witness for C9: a fulfilled download saves under the original name. -/
theorem download_saves_suggested_name_witness :
    (downloadAction ⟨"7", "lipid_panel.pdf", "p@x", "pdf", "2024-01-01"⟩
      (Except.ok [1, 2])).savedAs = some "lipid_panel.pdf" :=
  ((download_saves_suggested_name
    ⟨"7", "lipid_panel.pdf", "p@x", "pdf", "2024-01-01"⟩
    (Except.ok [1, 2])).2.1 [1, 2] rfl).1

/-- C10: when a well-formed upload is rejected, every component of the
dashboard state — selected file, selected user, reports, users — keeps its
prior value and no refresh is triggered; only a toast is raised. -/
theorem upload_failure_frame (s : AdminState) (e : ApiError)
    (reportsRes : Except ApiError (List Report))
    (usersRes : Except ApiError (List UserRec))
    (hf : s.file ≠ none) (hu : s.selectedUser ≠ "") :
    (handleUpload s (Except.error e) reportsRes usersRes).state.file = s.file
    ∧ (handleUpload s (Except.error e) reportsRes usersRes).state.selectedUser
        = s.selectedUser
    ∧ (handleUpload s (Except.error e) reportsRes usersRes).state.reports
        = s.reports
    ∧ (handleUpload s (Except.error e) reportsRes usersRes).state.users = s.users
    ∧ (handleUpload s (Except.error e) reportsRes usersRes).state = s
    ∧ (handleUpload s (Except.error e) reportsRes usersRes).refreshCalled
        = false := by
  have hcond : ¬(s.file = none ∨ s.selectedUser = "") := by
    rintro (h | h)
    · exact hf h
    · exact hu h
  unfold handleUpload
  rw [if_neg hcond]
  exact ⟨rfl, rfl, rfl, rfl, rfl, rfl⟩

/-- Witness for C10 at a concrete filled-in form and a rejected upload. -/
theorem upload_failure_frame_witness :
    (handleUpload ⟨[], [⟨"3", "u@x"⟩], "u@x", some "f.pdf"⟩
      (Except.error ⟨none⟩) (Except.ok []) (Except.ok [])).state
      = ⟨[], [⟨"3", "u@x"⟩], "u@x", some "f.pdf"⟩ :=
  (upload_failure_frame ⟨[], [⟨"3", "u@x"⟩], "u@x", some "f.pdf"⟩ ⟨none⟩
    (Except.ok []) (Except.ok []) (by decide) (by decide)).2.2.2.2.1

end BalaLab
